import Mathlib

/-!
Shallow embedding of the moderation-action core of the AntiCheats behavior
pack: the action-profile engine (`actionManager.js`), the chat command
dispatch gateway (`commandManager.js`), the ban command (`ban.js`) and the
report record cache (`reportManager.js`).  JavaScript objects are embedded
as Lean structures, nullable values as `Option`, string-keyed objects as
association lists, and the observable side effects of each operation
(messages sent, log entries appended, store writes) as explicit fields of a
result record.  Thrown JavaScript errors are embedded with `Except`.
-/

set_option autoImplicit false

namespace AntiCheats

/-- Case-sensitive association-list lookup, embedding a JavaScript
string-keyed object read `obj[key]` (first binding wins, as in an object
literal where later duplicate keys would have been collapsed already). -/
def lookupAssoc {α : Type} : List (String × α) → String → Option α
  | [], _ => none
  | (k, v) :: rest, key => if k = key then some v else lookupAssoc rest key

namespace ActionManager

/-- Value of the `violationDetails` argument of `executeCheckAction` /
`formatViolationDetails`: JavaScript `null` (or `undefined`), a non-object
primitive, or an object seen as its insertion-ordered `Object.entries`
list.  Property values are embedded already stringified, standing for the
`String(value)` conversion the source applies to them. -/
inductive ViolationDetails where
  | nullv : ViolationDetails
  | prim (s : String) : ViolationDetails
  | obj (entries : List (String × String)) : ViolationDetails
deriving DecidableEq

/-- Embedding of `formatViolationDetails` (actionManager.js lines 16-23):
`null`/non-object/key-less input yields `"N/A"`, otherwise the
`Object.entries` are rendered `key: value` and joined with `, `. -/
def formatViolationDetails : ViolationDetails → String
  | .nullv => "N/A"
  | .prim _ => "N/A"
  | .obj entries =>
      if entries.length = 0 then "N/A"
      else String.intercalate ", " (entries.map (fun kv => kv.1 ++ ": " ++ kv.2))

/-- Embedding of `formatActionMessage` (actionManager.js lines 36-55):
global replacement of the three fixed placeholders followed by one global
replacement per key of the details object, in key order. -/
def formatActionMessage (template playerName checkType : String)
    (violationDetails : ViolationDetails) : String :=
  if template = "" then ""
  else
    let m1 := template.replace "\x7bplayerName\x7d" playerName
    let m2 := m1.replace "\x7bcheckType\x7d" checkType
    let m3 := m2.replace "\x7bdetailsString\x7d" (formatViolationDetails violationDetails)
    match violationDetails with
    | .obj entries =>
        entries.foldl (fun acc kv => acc.replace ("\x7b" ++ kv.1 ++ "\x7d") kv.2) m3
    | _ => m3

/-- Flag sub-profile of an action profile (`profile.flag`); `increment` is
`some n` exactly when the JavaScript value has `typeof === 'number'`. -/
structure FlagSpec where
  type : Option String
  increment : Option Int
  reason : Option String
deriving DecidableEq

/-- Log sub-profile of an action profile (`profile.log`). -/
structure LogSpec where
  actionType : Option String
  detailsPref : Option String
  includeViolationDetails : Option Bool
deriving DecidableEq

/-- Admin-notification sub-profile of an action profile
(`profile.notifyAdmins`). -/
structure NotifySpec where
  message : Option String
deriving DecidableEq

/-- One entry of `config.checkActionProfiles`, keyed by checkType. -/
structure ActionProfile where
  enabled : Bool
  flag : Option FlagSpec
  log : Option LogSpec
  notifyAdmins : Option NotifySpec
deriving DecidableEq

/-- Player reference as the action manager uses it: identity plus the
`nameTag` display name. -/
structure PlayerRef where
  id : String
  nameTag : String
deriving DecidableEq

/-- Per-player moderation data as far as `executeCheckAction` reads it. -/
structure PData where
  exists_ : Bool
deriving DecidableEq

/-- Dependency bundle of `executeCheckAction`.  `checkActionProfiles` is
`none` when `config` is absent or has no `checkActionProfiles` key; the
`Present` booleans embed the optional-chaining / truthiness guards on
`playerDataManager.addFlag`, `logManager.addLog`, `playerUtils.notifyAdmins`,
`playerUtils.debugLog`, `playerDataManager` itself and
`playerDataManager.getPlayerData`. -/
structure ActionDeps where
  checkActionProfiles : Option (List (String × ActionProfile))
  addFlagPresent : Bool
  addLogPresent : Bool
  notifyAdminsPresent : Bool
  debugLogPresent : Bool
  pdmPresent : Bool
  getPlayerDataPresent : Bool
  getPlayerData : String → Option PData

/-- One recorded `playerDataManager.addFlag` invocation. -/
structure FlagCall where
  playerId : String
  flagType : String
  reason : String
  details : String
deriving DecidableEq

/-- One recorded `logManager.addLog` invocation from the action manager. -/
structure ActionLogEntry where
  adminName : String
  actionType : String
  targetName : String
  details : String
  reason : String
deriving DecidableEq

/-- One recorded write to `pData.lastViolationDetailsMap` (together with
the `isDirtyForSave` mark the source sets alongside it). -/
structure PDataWrite where
  playerId : String
  checkType : String
  itemTypeId : String
  timestamp : Nat
deriving DecidableEq

/-- Observable effects of one `executeCheckAction` call. -/
structure CheckEffects where
  traces : List String
  flagCalls : List FlagCall
  logCalls : List ActionLogEntry
  notifyCalls : List String
  pDataWrites : List PDataWrite
deriving DecidableEq

/-- Effect record with every channel empty. -/
def noEffects : CheckEffects :=
  { traces := [], flagCalls := [], logCalls := [], notifyCalls := [], pDataWrites := [] }

/-- Emission through `playerUtils?.debugLog?.(...)`: nothing when the
dependency is absent. -/
def traceIf (deps : ActionDeps) (msg : String) : List String :=
  if deps.debugLogPresent then [msg] else []

/-- Display label of the acting player: `player ? player.nameTag : "System"`. -/
def playerLabel : Option PlayerRef → String
  | some p => p.nameTag
  | none => "System"

/-- Diagnostic trace text of the `enabled: false` early return
(actionManager.js line 91). -/
def disabledTraceMsg (checkType label : String) : String :=
  "[ActionManager] Actions for checkType \"" ++ checkType ++
    "\" are disabled in its profile. Context: " ++ label

/-- JavaScript truthiness of an embedded string property value. -/
def truthyStr : Option String → Option String
  | some s => if s = "" then none else some s
  | none => none

/-- Embedding of `executeCheckAction` (actionManager.js lines 73-170).
The three guard returns (missing `checkActionProfiles`, missing profile,
`enabled: false`) emit only their diagnostic trace; the enabled path
performs the flag loop, the structured log append, the admin notification
and the `itemTypeId` stamping, each gated exactly as in the source. -/
def executeCheckAction (player : Option PlayerRef) (checkType : String)
    (violationDetails : ViolationDetails) (deps : ActionDeps) (now : Nat) :
    CheckEffects :=
  let playerNameForLog := playerLabel player
  match deps.checkActionProfiles with
  | none =>
      { noEffects with
        traces := traceIf deps
          ("[ActionManager] checkActionProfiles not found in config. Cannot process action for "
            ++ checkType ++ ". Context: " ++ playerNameForLog) }
  | some table =>
      match lookupAssoc table checkType with
      | none =>
          { noEffects with
            traces := traceIf deps
              ("[ActionManager] No action profile found for checkType: \"" ++ checkType
                ++ "\". Context: " ++ playerNameForLog) }
      | some profile =>
          if profile.enabled = false then
            { noEffects with
              traces := traceIf deps (disabledTraceMsg checkType playerNameForLog) }
          else
            let baseReasonTemplate :=
              match profile.flag with
              | some f => (truthyStr f.reason).getD ("Triggered " ++ checkType)
              | none => "Triggered " ++ checkType
            let flagReasonMessage :=
              formatActionMessage baseReasonTemplate playerNameForLog checkType violationDetails
            -- 1. Flagging
            let flagPart : List FlagCall × List String :=
              match player, profile.flag with
              | some p, some f =>
                  if deps.addFlagPresent then
                    let flagType := (truthyStr f.type).getD checkType
                    let increment := match f.increment with
                      | some n => n
                      | none => 1
                    let call : FlagCall :=
                      { playerId := p.id, flagType := flagType,
                        reason := flagReasonMessage,
                        details := formatViolationDetails violationDetails }
                    (List.replicate increment.toNat call,
                      traceIf deps
                        ("[ActionManager] Flagged " ++ playerNameForLog ++ " for " ++ flagType
                          ++ " (x" ++ toString increment ++ "). Reason: \"" ++ flagReasonMessage ++ "\""))
                  else ([], [])
              | none, some _ =>
                  ([], traceIf deps
                    ("[ActionManager] Skipping flagging for checkType \"" ++ checkType
                      ++ "\" because player is null. Profile had flagging enabled."))
              | _, none => ([], [])
            -- 2. Logging
            let logPart : List ActionLogEntry :=
              match profile.log with
              | some l =>
                  if deps.addLogPresent then
                    let logActionType := (truthyStr l.actionType).getD ("detected_" ++ checkType)
                    let logDetailsString :=
                      l.detailsPref.getD "" ++
                        (if l.includeViolationDetails ≠ some false then
                          formatViolationDetails violationDetails
                        else "")
                    [{ adminName := "System", actionType := logActionType,
                       targetName := playerNameForLog,
                       details := logDetailsString.trim, reason := flagReasonMessage }]
                  else []
              | none => []
            -- 3. Admin notification
            let notifyPart : List String :=
              match profile.notifyAdmins with
              | some n =>
                  match truthyStr n.message with
                  | some msg =>
                      if deps.notifyAdminsPresent then
                        [formatActionMessage msg playerNameForLog checkType violationDetails]
                      else []
                  | none => []
              | none => []
            -- 4. itemTypeId stamping on pData
            let itemId : Option String :=
              match violationDetails with
              | .obj entries => truthyStr (lookupAssoc entries "itemTypeId")
              | _ => none
            let stampPart : List PDataWrite × List String :=
              match player, itemId with
              | some p, some item =>
                  if deps.pdmPresent then
                    match (if deps.getPlayerDataPresent then deps.getPlayerData p.id else none) with
                    | some _ =>
                        ([{ playerId := p.id, checkType := checkType,
                            itemTypeId := item, timestamp := now }],
                          traceIf deps
                            ("[ActionManager] Stored itemTypeId " ++ item ++ " for check " ++ checkType
                              ++ " in pData.lastViolationDetailsMap for " ++ playerNameForLog ++ "."))
                    | none =>
                        ([], traceIf deps
                          ("[ActionManager] Could not store itemTypeId for check " ++ checkType
                            ++ " because pData could not be retrieved for " ++ playerNameForLog ++ "."))
                  else ([], [])
              | none, some _ =>
                  ([], traceIf deps
                    ("[ActionManager] Skipping storage of itemTypeId for check " ++ checkType
                      ++ " because player is null."))
              | _, none => ([], [])
            { traces := flagPart.2 ++ stampPart.2,
              flagCalls := flagPart.1,
              logCalls := logPart,
              notifyCalls := notifyPart,
              pDataWrites := stampPart.1 }

end ActionManager

namespace ReportManager

/-- Maximum number of report entries kept (`maxReportsCount`,
reportManager.js line 184). -/
def maxReportsCount : Nat := 100

/-- Player handle as `addReport` reads it (`id` and `nameTag`). -/
structure PlayerHandle where
  id : String
  nameTag : String
deriving DecidableEq

/-- Persisted report entry (reportManager.js `ReportEntry`). -/
structure ReportEntry where
  id : String
  timestamp : Nat
  reporterId : String
  reporterName : String
  reportedId : String
  reportedName : String
  reason : String
deriving DecidableEq

/-- Module state of reportManager.js: the in-memory cache, the dirty flag,
and the value currently under the `anticheat:reports_v1` dynamic property
(`none` embeds `undefined`). -/
structure RState where
  reports : List ReportEntry
  dirty : Bool
  store : Option String
deriving DecidableEq

/-- Argument validation of `addReport` (reportManager.js lines 286-290):
every guard uses JavaScript truthiness, so a missing player object, an
empty `id`/`nameTag`, or an empty reason is rejected. -/
def validReportArgs (reporter reported : Option PlayerHandle) (reason : String) : Bool :=
  match reporter, reported with
  | some r1, some r2 =>
      r1.id ≠ "" && r1.nameTag ≠ "" && r2.id ≠ "" && r2.nameTag ≠ "" && reason ≠ ""
  | _, _ => false

/-- One `addReport` invocation with its environment-supplied values: the
generated id (`generateReportId()`) and the `Date.now()` timestamp. -/
structure AddCall where
  reporter : Option PlayerHandle
  reported : Option PlayerHandle
  reason : String
  genId : String
  now : Nat
deriving DecidableEq

/-- Report entry built by a valid `addReport` call.  The `getD` defaults
are unreachable: `validReportArgs` guarantees both handles are present. -/
def mkReportEntry (c : AddCall) : ReportEntry :=
  { id := c.genId, timestamp := c.now,
    reporterId := (c.reporter.getD ⟨"", ""⟩).id,
    reporterName := (c.reporter.getD ⟨"", ""⟩).nameTag,
    reportedId := (c.reported.getD ⟨"", ""⟩).id,
    reportedName := (c.reported.getD ⟨"", ""⟩).nameTag,
    reason := c.reason.trim }

/-- Embedding of `addReport` (reportManager.js lines 285-313): on invalid
arguments return `null` without touching state; otherwise `unshift` the new
entry, truncate with `length = maxReportsCount` when the cap is exceeded,
and set the dirty flag. -/
def addReport (c : AddCall) (st : RState) : Option ReportEntry × RState :=
  if validReportArgs c.reporter c.reported c.reason then
    let newReport := mkReportEntry c
    let grown := newReport :: st.reports
    let kept := if grown.length > maxReportsCount then grown.take maxReportsCount else grown
    (some newReport, { reports := kept, dirty := true, store := st.store })
  else
    (none, st)

/-- Iterated `addReport` over a sequence of calls, keeping only the state. -/
def runAddReports (calls : List AddCall) (st : RState) : RState :=
  calls.foldl (fun s c => (addReport c s).2) st

/-- Embedding of `persistReportsToDisk` (reportManager.js lines 251-265).
`writeOk` stands for whether `world.setDynamicProperty` succeeds;
`serializeReports` stands for `JSON.stringify` of the cache.  On a clean
cache with an existing key nothing happens; on write success the blob is
stored and the dirty flag cleared; on write failure the state is left
untouched and `false` is returned. -/
def serializeReports (l : List ReportEntry) : String :=
  String.intercalate ";" (l.map (fun r =>
    r.id ++ "," ++ toString r.timestamp ++ "," ++ r.reporterId ++ "," ++ r.reporterName
      ++ "," ++ r.reportedId ++ "," ++ r.reportedName ++ "," ++ r.reason))

/-- Embedding of `persistReportsToDisk`; see `serializeReports` for the
conventions. -/
def persistReportsToDisk (writeOk : Bool) (st : RState) : Bool × RState :=
  if st.dirty = false ∧ st.store ≠ none then
    (true, st)
  else if writeOk then
    (true, { st with store := some (serializeReports st.reports), dirty := false })
  else
    (false, st)

/-- Embedding of `clearAllReports` (reportManager.js lines 319-324): the
cache is replaced by the empty list and the dirty flag set, then
`persistReportsToDisk` is attempted and its result returned. -/
def clearAllReports (writeOk : Bool) (st : RState) : Bool × RState :=
  persistReportsToDisk writeOk { st with reports := [], dirty := true }

/-- Embedding of `clearReportById` (reportManager.js lines 332-343). -/
def clearReportById (reportId : String) (writeOk : Bool) (st : RState) : Bool × RState :=
  let remaining := st.reports.filter (fun r => r.id ≠ reportId)
  if remaining.length < st.reports.length then
    persistReportsToDisk writeOk { st with reports := remaining, dirty := true }
  else
    (false, st)

end ReportManager

/-- Modelled from the spec: the numeric permission tiers exported by
`rankManager.js`, which is not among the provided sources.  The spec fixes
only the ordering convention — a lower numeric value denotes higher
privilege, with "owner" the top tier and "admin" the tier below it — so the
tiers are embedded as `owner = 0 < admin = 1`. -/
structure PermissionTiers where
  owner : Nat
  admin : Nat
deriving DecidableEq

/-- Concrete permission tier values; see `PermissionTiers`. -/
def permissionLevels : PermissionTiers := { owner := 0, admin := 1 }

namespace CommandManager

/-- Chat sender as the dispatch gateway reads it. -/
structure ChatPlayer where
  id : String
  name : String
  nameTag : String
deriving DecidableEq

/-- Command definition record (`CommandDefinition` of types.js, as built in
ban.js and read by commandManager.js). -/
structure CommandDefinition where
  name : String
  syntaxStr : String
  description : String
  permissionLevel : Nat
  enabled : Bool
deriving DecidableEq

/-- Player data as the gateway reads it (only `isWatched`). -/
structure GatewayPData where
  isWatched : Bool
deriving DecidableEq

/-- Inputs and collaborators of `handleChatCommand`.  `commandSettings`
holds the per-installation overrides whose `enabled` is boolean-typed;
`defs` and `execs` are the two parallel registration tables
(`commandDefinitionMap` / `commandExecutionMap`). -/
structure DispatchDeps where
  prefixStr : String
  commandAliases : List (String × String)
  commandSettings : List (String × Bool)
  defs : List (String × CommandDefinition)
  execs : List String
  getLevel : ChatPlayer → Nat
  getPlayerData : String → Option GatewayPData
  debugLogPresent : Bool
  isAdmin : ChatPlayer → Bool

/-- Observable outcome of a `handleChatCommand` run that returns normally. -/
structure DispatchResult where
  messages : List String
  warnings : List String
  debugLogs : List String
  cancelled : Bool
  executorInvoked : Bool
deriving DecidableEq

/-- Character-list embedding of JavaScript `String.prototype.trim`. -/
def jsTrim (s : String) : String :=
  String.mk (((s.toList.dropWhile Char.isWhitespace).reverse.dropWhile
    Char.isWhitespace).reverse)

/-- Splitting of a character list at whitespace characters, producing the
(possibly empty) chunks between them. -/
def wsChunks : List Char → List Char → List (List Char)
  | [], acc => [acc.reverse]
  | c :: rest, acc =>
      if c.isWhitespace then acc.reverse :: wsChunks rest []
      else wsChunks rest (c :: acc)

/-- Character-list embedding of `String.prototype.toLowerCase` (over the
ASCII range the command names use). -/
def jsToLower (s : String) : String :=
  String.mk (s.toList.map Char.toLower)

/-- Character-list embedding of `String.prototype.substring(n)`. -/
def jsDrop (s : String) (n : Nat) : String :=
  String.mk (s.toList.drop n)

/-- JavaScript `trimmed.split(/\s+/)` after `message.trim()`: the empty
string splits to `[""]`, a non-empty trimmed string to its maximal
whitespace-free tokens. -/
def jsSplitWs (s : String) : List String :=
  let t := jsTrim s
  if t = "" then [""]
  else ((wsChunks t.toList []).map (fun l => String.mk l)).filter (fun x => x ≠ "")

/-- First token of the message after the configured command marker,
lower-cased (`args.shift()?.toLowerCase()`). -/
def commandNameInputOf (message : String) (deps : DispatchDeps) : String :=
  jsToLower ((jsSplitWs (jsDrop message deps.prefixStr.length)).headD "")

/-- Positional arguments left after removing the command token. -/
def argsOf (message : String) (deps : DispatchDeps) : List String :=
  (jsSplitWs (jsDrop message deps.prefixStr.length)).tail

/-- Alias resolution (commandManager.js lines 78-79): a truthy alias target
replaces the typed name, lower-cased. -/
def resolvedCommandName (message : String) (deps : DispatchDeps) : String :=
  let c := commandNameInputOf message deps
  match lookupAssoc deps.commandAliases c with
  | some a => if a = "" then c else jsToLower a
  | none => c

/-- The literal unknown-command reply (commandManager.js lines 89 and 100 —
the same string in both the unregistered and the disabled branch). -/
def unknownCommandMsg (pfx name : String) : String :=
  "§cUnknown command: " ++ pfx ++ name ++ "§r. Type " ++ pfx ++ "help for assistance."

/-- Emission through a present `playerUtils.debugLog`. -/
def gatewayTraceIf (deps : DispatchDeps) (msg : String) : List String :=
  if deps.debugLogPresent then [msg] else []

/-- Effective enablement of a registered command (commandManager.js lines
94-97): a boolean-typed per-installation override wins over the
compiled-in default. -/
def effectiveEnabled (deps : DispatchDeps) (name : String) (cd : CommandDefinition) : Bool :=
  match lookupAssoc deps.commandSettings name with
  | some b => b
  | none => cd.enabled

/-- Embedding of `handleChatCommand` (commandManager.js lines 62-165).
The function runs the parse / alias / lookup / enablement / permission
stages; a run that reaches the dispatch stage builds the dependency bundle
object literal, whose shorthand property `logManager` names an identifier
the module never binds (only `addLog` is imported from logManager.js), so
the run throws a `ReferenceError` there — before the `try` that wraps the
executor call — which the embedding renders as `Except.error`.  The admin
console audit line and the watched-admin echo precede the throw but are
discarded with it here, as no claim observes them. -/
def handleChatCommand (player : ChatPlayer) (message : String)
    (deps : DispatchDeps) : Except String DispatchResult :=
  let commandNameInput := commandNameInputOf message deps
  let args := argsOf message deps
  let dbg0 := gatewayTraceIf deps
    ("Player " ++ player.nameTag ++ " issued command attempt: \"" ++ commandNameInput
      ++ "\" with args: [" ++ String.intercalate ", " args ++ "]")
  if commandNameInput = "" then
    .ok { messages := ["§cPlease enter a command after the prefix. Type "
            ++ deps.prefixStr ++ "help for a list of commands."],
          warnings := [], debugLogs := dbg0, cancelled := true, executorInvoked := false }
  else
    let aliasTarget := lookupAssoc deps.commandAliases commandNameInput
    let finalCommandName := resolvedCommandName message deps
    let dbg1 := dbg0 ++
      (match aliasTarget with
        | some a =>
            if a = "" then []
            else gatewayTraceIf deps
              ("Command alias \x27" ++ commandNameInput ++ "\x27 resolved to \x27"
                ++ finalCommandName ++ "\x27.")
        | none => [])
    match lookupAssoc deps.defs finalCommandName, deps.execs.contains finalCommandName with
    | some commandDef, true =>
        if effectiveEnabled deps finalCommandName commandDef = false then
          .ok { messages := [unknownCommandMsg deps.prefixStr finalCommandName],
                warnings := [],
                debugLogs := dbg1 ++ gatewayTraceIf deps
                  ("Command \x27" ++ finalCommandName ++ "\x27 is disabled. Access denied for "
                    ++ player.nameTag ++ "."),
                cancelled := true, executorInvoked := false }
        else
          let userPermissionLevel := deps.getLevel player
          if userPermissionLevel > commandDef.permissionLevel then
            .ok { messages := [],
                  warnings := ["You do not have permission to use this command."],
                  debugLogs := dbg1 ++ gatewayTraceIf deps
                    ("Command \x27" ++ commandDef.name ++ "\x27 denied for " ++ player.nameTag
                      ++ " due to insufficient permissions. Required: "
                      ++ toString commandDef.permissionLevel ++ ", Player has: "
                      ++ toString userPermissionLevel),
                  cancelled := true, executorInvoked := false }
          else
            .error "ReferenceError: logManager is not defined"
    | _, _ =>
        .ok { messages := [unknownCommandMsg deps.prefixStr finalCommandName],
              warnings := [], debugLogs := dbg1, cancelled := true, executorInvoked := false }

/-- Property names of the dependency-bundle object literal that
`handleChatCommand` builds for the executor (commandManager.js lines
133-149), in source order. -/
def dependencyBundleKeys : List String :=
  ["mc", "playerDataManager", "uiManager", "config", "configModule", "playerUtils",
   "logManager", "permissionLevels", "ActionFormData", "MessageFormData", "ModalFormData",
   "reportManager", "allCommands", "commandDefinitionMap", "ItemComponentTypes"]

/-- Identifiers bound at the top level of commandManager.js: its imports
(lines 7-19) and its own declarations.  `logManager` is not among them —
only `addLog` is imported from `./logManager.js` — so the shorthand
property `logManager` of the dependency bundle references an unbound name. -/
def commandManagerTopLevelNames : List String :=
  ["mc", "configModule", "permissionLevels", "getPlayerPermissionLevel", "findPlayer",
   "parseDuration", "addLog", "reportManager", "ActionFormData", "MessageFormData",
   "ModalFormData", "ItemComponentTypes", "commandModules", "commandDefinitionMap",
   "commandExecutionMap", "handleChatCommand"]

end CommandManager

namespace BanCommand

/-- Player as the ban command reads it: identity and display name. -/
structure BanPlayer where
  id : String
  nameTag : String
deriving DecidableEq

/-- Result of `parseDuration`: a finite millisecond count or the
JavaScript `Infinity` the parser returns for a permanent ban; `none`
embeds `null` for an unparseable string. -/
inductive Duration where
  | finite (ms : Int) : Duration
  | infinite : Duration
deriving DecidableEq

/-- Validity test of the parsed duration (ban.js line 94): `null` and any
non-positive finite count are rejected; `Infinity` is accepted. -/
def durationValid : Option Duration → Bool
  | none => false
  | some (.finite ms) => decide (0 < ms)
  | some .infinite => true

/-- Ban record as `playerDataManager.getBanInfo` returns it, as far as the
success path reads it. -/
structure BanInfo where
  reason : String
  bannedBy : String
  unbanTime : Int
deriving DecidableEq

/-- Dependencies the ban command pulls from its bundle plus the outcome of
the environment calls it makes: `addBanResult` is the boolean
`playerDataManager.addBan` returns, `getBanInfo` the record it then reads
back, `kickThrows` whether `foundPlayer.kick` raises (the target already
disconnected). -/
structure BanDeps where
  prefixStr : String
  enableDebugLogging : Bool
  findPlayer : String → Option BanPlayer
  parseDuration : String → Option Duration
  getPlayerPermissionLevel : BanPlayer → Nat
  addBanResult : Bool
  getBanInfo : Option BanInfo
  notifyAdminsPresent : Bool
  addLogPresent : Bool
  debugLogPresent : Bool
  kickThrows : Bool

/-- Modelled from the spec: the localization lookup `getString` of
`i18n.js`, which is not among the provided sources (the spec lists
localization string storage as out of scope).  Each key renders to a
distinct string carrying its substitution parameters, which preserves what
the verified properties observe: which message was chosen and which data
it carries. -/
def getString (key : String) (params : List (String × String)) : String :=
  key ++ params.foldl (fun acc kv => acc ++ " " ++ kv.1 ++ "=" ++ kv.2) ""

/-- One recorded `playerDataManager.addBan` invocation. -/
structure BanCall where
  targetId : String
  duration : Duration
  reason : String
  bannedBy : String
  isAutoModAction : Bool
  autoModCheckType : Option String
deriving DecidableEq

/-- One audit-log entry appended by the ban command on success. -/
structure BanLogEntry where
  timestamp : Nat
  adminName : String
  actionType : String
  targetName : String
  duration : String
  reason : String
  isAutoMod : Bool
  checkType : Option String
deriving DecidableEq

/-- Observable effects of one ban-command `execute` run. -/
structure BanOutcome where
  playerMessages : List String
  consoleWarns : List String
  consoleLogs : List String
  debugLogs : List String
  addBanCalls : List BanCall
  kickAttempts : List String
  notifyCalls : List String
  logCalls : List BanLogEntry
deriving DecidableEq

/-- Ban outcome with every channel empty. -/
def emptyOutcome : BanOutcome :=
  { playerMessages := [], consoleWarns := [], consoleLogs := [], debugLogs := [],
    addBanCalls := [], kickAttempts := [], notifyCalls := [], logCalls := [] }

/-- Removal of Minecraft color codes, embedding
`.replace(/§[a-f0-9]/g, "")` of ban.js lines 147 and 162. -/
def stripColorChars : List Char → List Char
  | [] => []
  | [c] => [c]
  | c :: d :: rest =>
      if c = '§' ∧ (('a' ≤ d ∧ d ≤ 'f') ∨ ('0' ≤ d ∧ d ≤ '9')) then stripColorChars rest
      else c :: stripColorChars (d :: rest)

/-- String form of `stripColorChars`. -/
def stripColorCodes (s : String) : String :=
  String.mk (stripColorChars s.toList)

/-- Duration string defaulting (ban.js line 49): `args[1] || "perm"`, so
both a missing and an empty second argument fall back to permanent. -/
def durationStringOf (rest : List String) : String :=
  match rest.head? with
  | some s => if s = "" then "perm" else s
  | none => "perm"

/-- System reason used for AutoMod invocations (ban.js lines 53 and 55),
with the `autoModCheckType || "violations"` truthiness fallback. -/
def autoModReason (autoModCheckType : Option String) : String :=
  "AutoMod action for " ++
    (match autoModCheckType with
      | some s => if s = "" then "violations" else s
      | none => "violations") ++ "."

/-- Reason computation of ban.js lines 51-56. -/
def banReason (args : List String) (invokedBy : String)
    (autoModCheckType : Option String) : String :=
  if invokedBy = "AutoMod" ∧ args.length ≤ 2 then autoModReason autoModCheckType
  else
    let joined := String.intercalate " " (args.drop 2)
    if joined ≠ "" then joined
    else if invokedBy = "AutoMod" then autoModReason autoModCheckType
    else "Banned by an administrator."

/-- Continuation of `execute` from the duration parse on (ban.js lines
93-164), reached once the target is resolved and the permission stage has
passed. -/
def banProceed (player : Option BanPlayer) (foundPlayer : BanPlayer)
    (durationString reason : String) (deps : BanDeps) (invokedBy : String)
    (isAutoModAction : Bool) (autoModCheckType : Option String) (now : Nat) : BanOutcome :=
  let durationMs := deps.parseDuration durationString
  if durationValid durationMs = false then
    let message := getString "command.ban.invalidDuration" []
    match player with
    | some _ => { emptyOutcome with playerMessages := [message] }
    | none => { emptyOutcome with
        consoleWarns := [message ++ " (Invoked by " ++ invokedBy ++ ")"] }
  else
    let bannedBy :=
      if invokedBy = "AutoMod" then "AutoMod"
      else match player with
        | some p => p.nameTag
        | none => "System"
    let theCall : BanCall :=
      { targetId := foundPlayer.id,
        duration := (durationMs.getD .infinite),
        reason := reason, bannedBy := bannedBy,
        isAutoModAction := isAutoModAction, autoModCheckType := autoModCheckType }
    if deps.addBanResult then
      let banInfo := deps.getBanInfo
      let actualReason := match banInfo with
        | some b => b.reason
        | none => reason
      let actualBannedBy := match banInfo with
        | some b => b.bannedBy
        | none => bannedBy
      let kickTail :=
        match durationMs with
        | some .infinite => getString "command.ban.kickMessagePermanent" []
        | _ =>
            let unbanTimeDisplay : Int := match banInfo with
              | some b => b.unbanTime
              | none => (now : Int) + (match durationMs with
                  | some (.finite ms) => ms
                  | _ => 0)
            getString "command.ban.kickMessageExpires" [("expiryDate", toString unbanTimeDisplay)]
      let kickMessage := String.intercalate "\n"
        [getString "command.ban.kickMessagePrefix" [],
         getString "command.ban.kickMessageReason" [("reason", actualReason)],
         getString "command.ban.kickMessageBannedBy" [("bannedBy", actualBannedBy)],
         kickTail]
      let kickDbg :=
        if deps.kickThrows ∧ deps.enableDebugLogging then
          ["Attempted to kick banned player " ++ foundPlayer.nameTag
            ++ " but they might have already disconnected."]
        else []
      let successMessage := getString "command.ban.success"
        [("targetName", foundPlayer.nameTag), ("durationString", durationString),
         ("reason", actualReason)]
      let successPart : List String × List String :=
        match player with
        | some _ => ([successMessage], [])
        | none => ([], [stripColorCodes successMessage])
      let notifyPart :=
        if deps.notifyAdminsPresent then
          [getString "command.ban.adminNotification"
            [("targetName", foundPlayer.nameTag), ("bannedBy", actualBannedBy),
             ("durationString", durationString), ("reason", actualReason)]]
        else []
      let logPart : List BanLogEntry :=
        if deps.addLogPresent then
          [{ timestamp := now, adminName := actualBannedBy, actionType := "ban",
             targetName := foundPlayer.nameTag, duration := durationString,
             reason := actualReason, isAutoMod := isAutoModAction,
             checkType := autoModCheckType }]
        else []
      { emptyOutcome with
        playerMessages := successPart.1,
        consoleLogs := successPart.2,
        debugLogs := kickDbg,
        addBanCalls := [theCall],
        kickAttempts := [kickMessage],
        notifyCalls := notifyPart,
        logCalls := logPart }
    else
      let failureMessage := getString "command.ban.fail"
        [("targetName", foundPlayer.nameTag)]
      match player with
      | some _ =>
          { emptyOutcome with
            addBanCalls := [theCall], playerMessages := [failureMessage] }
      | none =>
          { emptyOutcome with
            addBanCalls := [theCall], consoleWarns := [stripColorCodes failureMessage] }

/-- Embedding of the ban command `execute` (ban.js lines 29-165): argument
check, target resolution, self-ban check, the three permission-hierarchy
checks (all gated on a human `PlayerCommand` issuer), then `banProceed`. -/
def execute (player : Option BanPlayer) (args : List String) (deps : BanDeps)
    (invokedBy : String) (isAutoModAction : Bool) (autoModCheckType : Option String)
    (now : Nat) : BanOutcome :=
  match args with
  | [] =>
      let usageMessage := getString "command.ban.usage" [("prefix", deps.prefixStr)]
      match player with
      | some _ => { emptyOutcome with playerMessages := [usageMessage] }
      | none => { emptyOutcome with
          consoleWarns := ["Ban command called without player and insufficient args by system."] }
  | targetPlayerName :: rest =>
      let durationString := durationStringOf rest
      let reason := banReason (targetPlayerName :: rest) invokedBy autoModCheckType
      match deps.findPlayer targetPlayerName with
      | none =>
          let message := getString "command.ban.notFoundOffline"
            [("targetName", targetPlayerName)]
          match player with
          | some _ => { emptyOutcome with playerMessages := [message] }
          | none => { emptyOutcome with consoleWarns := [message] }
      | some foundPlayer =>
          match player with
          | some p =>
              if foundPlayer.id = p.id then
                { emptyOutcome with playerMessages := [getString "command.ban.self" []] }
              else if invokedBy = "PlayerCommand" then
                let targetPermissionLevel := deps.getPlayerPermissionLevel foundPlayer
                let issuerPermissionLevel := deps.getPlayerPermissionLevel p
                if targetPermissionLevel ≤ permissionLevels.admin
                    ∧ issuerPermissionLevel > permissionLevels.owner then
                  { emptyOutcome with
                    playerMessages := [getString "command.ban.permissionInsufficient" []] }
                else if targetPermissionLevel ≤ permissionLevels.owner
                    ∧ issuerPermissionLevel > permissionLevels.owner then
                  { emptyOutcome with
                    playerMessages := [getString "command.ban.ownerByNonOwner" []] }
                else if targetPermissionLevel = permissionLevels.owner
                    ∧ issuerPermissionLevel = permissionLevels.owner
                    ∧ p.id ≠ foundPlayer.id then
                  { emptyOutcome with
                    playerMessages := [getString "command.ban.ownerByOwner" []] }
                else
                  banProceed player foundPlayer durationString reason deps invokedBy
                    isAutoModAction autoModCheckType now
              else
                banProceed player foundPlayer durationString reason deps invokedBy
                  isAutoModAction autoModCheckType now
          | none =>
              banProceed player foundPlayer durationString reason deps invokedBy
                isAutoModAction autoModCheckType now

/-- The compiled-in definition record of the ban command (ban.js lines
12-18). -/
def banDefinition : CommandManager.CommandDefinition :=
  { name := "ban",
    syntaxStr := "!ban <playername> [duration] [reason]",
    description := "Bans a player for a specified duration (e.g., 7d, 2h, perm).",
    permissionLevel := permissionLevels.admin,
    enabled := true }

end BanCommand

namespace CommandManager

/-- Messages sent to the issuing player by a normally returning
`handleChatCommand` run; `none` when the run threw. -/
def dispatchMessages : Except String DispatchResult → Option (List String)
  | .ok r => some r.messages
  | .error _ => none

/-- The pair (message consumed, executor invoked) of a normally returning
`handleChatCommand` run; `none` when the run threw. -/
def dispatchFlags : Except String DispatchResult → Option (Bool × Bool)
  | .ok r => some (r.cancelled, r.executorInvoked)
  | .error _ => none

end CommandManager

/-- Concrete dispatch environment: the ban command registered and enabled,
an owner-level issuer, no aliases and no overrides. -/
def ownerBanEnv : CommandManager.DispatchDeps :=
  { prefixStr := "!", commandAliases := [], commandSettings := [],
    defs := [("ban", BanCommand.banDefinition)], execs := ["ban"],
    getLevel := fun _ => 0, getPlayerData := fun _ => none,
    debugLogPresent := false, isAdmin := fun _ => true }

/-- Concrete dispatch environment: the ban command registered but disabled
by its per-installation override. -/
def disabledBanEnv : CommandManager.DispatchDeps :=
  { ownerBanEnv with commandSettings := [("ban", false)] }

/-- Concrete dispatch environment: no command registered at all. -/
def emptyRegistryEnv : CommandManager.DispatchDeps :=
  { ownerBanEnv with defs := [], execs := [] }

/-- Concrete action-manager environment whose only profile is disabled. -/
def disabledProfileEnv : ActionManager.ActionDeps :=
  { checkActionProfiles := some
      [("fly_hover",
        { enabled := false,
          flag := some { type := none, increment := some 2, reason := some "hover" },
          log := some { actionType := none, detailsPref := none,
                        includeViolationDetails := none },
          notifyAdmins := some { message := some "caught" } })],
    addFlagPresent := true, addLogPresent := true, notifyAdminsPresent := true,
    debugLogPresent := true, pdmPresent := true, getPlayerDataPresent := true,
    getPlayerData := fun _ => none }

/-- Concrete ban-command environment: target "Alice" online, duration
strings "7d" and "perm" parseable, every collaborator present. -/
def banEnv : BanCommand.BanDeps :=
  { prefixStr := "!", enableDebugLogging := false,
    findPlayer := fun n => if n = "Alice" then some ⟨"idA", "Alice"⟩ else none,
    parseDuration := fun s =>
      if s = "7d" then some (.finite 604800000)
      else if s = "perm" then some .infinite
      else none,
    getPlayerPermissionLevel := fun _ => 1,
    addBanResult := true, getBanInfo := none,
    notifyAdminsPresent := true, addLogPresent := true, debugLogPresent := true,
    kickThrows := false }

/-- Any single `addReport` call — valid or rejected — keeps the cache at
the retention cap when it began there. -/
theorem addReport_length_le (c : ReportManager.AddCall) (st : ReportManager.RState)
    (h : st.reports.length ≤ ReportManager.maxReportsCount) :
    (ReportManager.addReport c st).2.reports.length ≤ ReportManager.maxReportsCount := by
  unfold ReportManager.addReport
  split
  · simp only
    split
    · simp only [List.length_take]
      omega
    · rename_i hle
      simp only [List.length_cons] at hle ⊢
      omega
  · exact h

open ActionManager ReportManager CommandManager BanCommand in
/-- C8: `formatViolationDetails` returns the fixed sentinel "N/A" for a
null, non-object, or key-less input, and renders every non-empty details
map as its `key: value` pairs joined by ", " in insertion order. -/
theorem formatViolationDetails_sentinel_and_join :
    ActionManager.formatViolationDetails .nullv = "N/A"
    ∧ (∀ s : String, ActionManager.formatViolationDetails (.prim s) = "N/A")
    ∧ ActionManager.formatViolationDetails (.obj []) = "N/A"
    ∧ (∀ entries : List (String × String), entries ≠ [] →
        ActionManager.formatViolationDetails (.obj entries)
          = String.intercalate ", " (entries.map (fun kv => kv.1 ++ ": " ++ kv.2))) := by
  refine ⟨rfl, fun s => rfl, rfl, fun entries h => ?_⟩
  simp [ActionManager.formatViolationDetails, h]

/-- Witness for C8 at the documentation example of actionManager.js. -/
theorem formatViolationDetails_sentinel_and_join_witness :
    ActionManager.formatViolationDetails (.obj [("value", "5"), ("threshold", "2")])
      = "value: 5, threshold: 2" := by
  rw [formatViolationDetails_sentinel_and_join.2.2.2 [("value", "5"), ("threshold", "2")]
    (by decide)]
  rfl

/-- C2: the dependency bundle `handleChatCommand` hands to command
executors does not expose `findPlayer`, `parseDuration` or `addLog` — the
collaborators the ban command destructures from it — and its `logManager`
shorthand property names an identifier the module never binds. -/
theorem dependencyBundle_missing_ban_helpers :
    ("findPlayer" ∉ CommandManager.dependencyBundleKeys)
    ∧ ("parseDuration" ∉ CommandManager.dependencyBundleKeys)
    ∧ ("addLog" ∉ CommandManager.dependencyBundleKeys)
    ∧ ("logManager" ∈ CommandManager.dependencyBundleKeys)
    ∧ ("logManager" ∉ CommandManager.commandManagerTopLevelNames) := by
  decide

/-- C6: for every actor (including null), every details value and every
checkType whose profile is disabled, `executeCheckAction` performs no
consequence — no flag increments, no log entries, no admin notifications,
no player-data mutation — and emits only the diagnostic trace. -/
theorem executeCheckAction_disabled_is_noop
    (player : Option ActionManager.PlayerRef) (checkType : String)
    (vd : ActionManager.ViolationDetails) (deps : ActionManager.ActionDeps) (now : Nat)
    (table : List (String × ActionManager.ActionProfile))
    (profile : ActionManager.ActionProfile)
    (hTable : deps.checkActionProfiles = some table)
    (hProfile : lookupAssoc table checkType = some profile)
    (hDisabled : profile.enabled = false) :
    ActionManager.executeCheckAction player checkType vd deps now =
      { ActionManager.noEffects with
        traces := ActionManager.traceIf deps
          (ActionManager.disabledTraceMsg checkType (ActionManager.playerLabel player)) } := by
  simp [ActionManager.executeCheckAction, hTable, hProfile, hDisabled]

/-- Witness for C6: a null actor hitting a disabled `fly_hover` profile
whose sub-profiles would flag, log and notify if consulted. -/
theorem executeCheckAction_disabled_is_noop_witness :
    ActionManager.executeCheckAction none "fly_hover" (.obj [("value", "5")])
        disabledProfileEnv 0 =
      { ActionManager.noEffects with
        traces := [ActionManager.disabledTraceMsg "fly_hover" "System"] } := by
  rw [executeCheckAction_disabled_is_noop none "fly_hover" (.obj [("value", "5")])
    disabledProfileEnv 0 _ _ rfl rfl rfl]
  rfl

/-- C10: `clearAllReports` empties the in-memory collection and sets the
dirty flag before persisting; when the store write fails it returns false
with the collection still cleared and the dirty flag still set. -/
theorem clearAllReports_failure_leaves_cleared (st : ReportManager.RState) :
    (∀ wk : Bool, (ReportManager.clearAllReports wk st).2.reports = [])
    ∧ (ReportManager.clearAllReports false st).1 = false
    ∧ (ReportManager.clearAllReports false st).2.reports = []
    ∧ (ReportManager.clearAllReports false st).2.dirty = true := by
  refine ⟨fun wk => ?_, ?_, ?_, ?_⟩ <;>
    simp [ReportManager.clearAllReports, ReportManager.persistReportsToDisk]
  split <;> rfl

/-- C5: from any cache within the retention cap, every sequence of
`addReport` calls keeps the cache within the cap; each valid insertion
prepends the new entry and truncates to the cap, and inserting into a full
cache leaves exactly the cap with the oldest tail entry dropped. -/
theorem addReport_cap_invariant :
    (∀ (calls : List ReportManager.AddCall) (st : ReportManager.RState),
        st.reports.length ≤ ReportManager.maxReportsCount →
        (ReportManager.runAddReports calls st).reports.length
          ≤ ReportManager.maxReportsCount)
    ∧ (∀ (c : ReportManager.AddCall) (st : ReportManager.RState),
        ReportManager.validReportArgs c.reporter c.reported c.reason = true →
        (ReportManager.addReport c st).2.reports
            = (ReportManager.mkReportEntry c :: st.reports).take ReportManager.maxReportsCount
          ∧ (st.reports.length = ReportManager.maxReportsCount →
              (ReportManager.addReport c st).2.reports.length = ReportManager.maxReportsCount
              ∧ (ReportManager.addReport c st).2.reports
                  = ReportManager.mkReportEntry c
                      :: st.reports.take (ReportManager.maxReportsCount - 1))) := by
  constructor
  · intro calls
    induction calls with
    | nil => intro st h; simpa [ReportManager.runAddReports] using h
    | cons c cs ih =>
        intro st h
        have hstep := addReport_length_le c st h
        simpa [ReportManager.runAddReports] using ih _ hstep
  · intro c st hv
    have hrep : (ReportManager.addReport c st).2.reports
        = (ReportManager.mkReportEntry c :: st.reports).take ReportManager.maxReportsCount := by
      unfold ReportManager.addReport
      rw [if_pos hv]
      simp only
      split
      · rfl
      · rename_i hle
        rw [List.take_of_length_le (by omega)]
    refine ⟨hrep, fun hfull => ?_⟩
    constructor
    · rw [hrep]
      simp [List.length_take, hfull]
    · rw [hrep]
      have h100 : ReportManager.maxReportsCount = (ReportManager.maxReportsCount - 1) + 1 := by
        norm_num [ReportManager.maxReportsCount]
      nth_rewrite 1 [h100]
      rw [List.take_succ_cons]

/-- Witness for C5: a valid insertion into a cache already holding exactly
the retained maximum leaves exactly the maximum. -/
theorem addReport_cap_invariant_witness :
    (ReportManager.addReport
        { reporter := some ⟨"idR", "Rae"⟩, reported := some ⟨"idT", "Tom"⟩,
          reason := "spam", genId := "id1", now := 5 }
        { reports := List.replicate 100
            { id := "r0", timestamp := 0, reporterId := "a", reporterName := "A",
              reportedId := "b", reportedName := "B", reason := "x" },
          dirty := false, store := none }).2.reports.length = 100 := by
  exact ((addReport_cap_invariant.2 _ _ (by decide)).2
    (by simp [ReportManager.maxReportsCount])).1

/-- C3: a human admin-tier issuer (level numerically above owner) who
targets a found, distinct player at or below the admin threshold receives
the permission-insufficient denial and `execute` stops with no `addBan`
call, so no ban record is created. -/
theorem ban_admin_denied_on_protected_target
    (p found : BanCommand.BanPlayer) (t : String) (rest : List String)
    (deps : BanCommand.BanDeps) (isAuto : Bool) (amct : Option String) (now : Nat)
    (hFound : deps.findPlayer t = some found)
    (hNotSelf : found.id ≠ p.id)
    (hIssuer : deps.getPlayerPermissionLevel p = permissionLevels.admin)
    (hTarget : deps.getPlayerPermissionLevel found ≤ permissionLevels.admin) :
    BanCommand.execute (some p) (t :: rest) deps "PlayerCommand" isAuto amct now =
      { BanCommand.emptyOutcome with
        playerMessages := [BanCommand.getString "command.ban.permissionInsufficient" []] } := by
  have hT : deps.getPlayerPermissionLevel found ≤ 1 := by
    simpa [permissionLevels] using hTarget
  have hI : deps.getPlayerPermissionLevel p = 1 := by
    simpa [permissionLevels] using hIssuer
  simp [BanCommand.execute, hFound, hNotSelf, hI, hT, permissionLevels]

/-- Witness for C3: an admin "Bob" trying to ban the admin-level target
"Alice" is denied and no ban record is created. -/
theorem ban_admin_denied_on_protected_target_witness :
    BanCommand.execute (some ⟨"idB", "Bob"⟩) ["Alice"] banEnv "PlayerCommand" false none 0 =
      { BanCommand.emptyOutcome with
        playerMessages := [BanCommand.getString "command.ban.permissionInsufficient" []] } :=
  ban_admin_denied_on_protected_target ⟨"idB", "Bob"⟩ ⟨"idA", "Alice"⟩ "Alice" [] banEnv
    false none 0 (by decide) (by decide) (by decide) (by decide)

/-- C7: an AutoMod invocation with a null issuer and the automation flag
set, against a found target with a valid duration, passes the hierarchy
stage without any denial and records `bannedBy = "AutoMod"` in the ban
record handed to `addBan`. -/
theorem autoMod_ban_passes_hierarchy_records_autoMod
    (found : BanCommand.BanPlayer) (t : String) (rest : List String)
    (deps : BanCommand.BanDeps) (amct : Option String) (now : Nat)
    (hFound : deps.findPlayer t = some found)
    (hDur : BanCommand.durationValid
        (deps.parseDuration (BanCommand.durationStringOf rest)) = true) :
    ((BanCommand.execute none (t :: rest) deps "AutoMod" true amct now).addBanCalls.map
        BanCommand.BanCall.bannedBy) = ["AutoMod"]
    ∧ (BanCommand.execute none (t :: rest) deps "AutoMod" true amct now).playerMessages
        = [] := by
  cases hab : deps.addBanResult <;>
    simp [BanCommand.execute, BanCommand.banProceed, BanCommand.emptyOutcome,
      hFound, hDur, hab]

/-- Witness for C7: AutoMod bans the online target "Alice" for "7d". -/
theorem autoMod_ban_passes_hierarchy_records_autoMod_witness :
    ((BanCommand.execute none ["Alice", "7d"] banEnv "AutoMod" true
        (some "spamming") 0).addBanCalls.map BanCommand.BanCall.bannedBy) = ["AutoMod"]
    ∧ (BanCommand.execute none ["Alice", "7d"] banEnv "AutoMod" true
        (some "spamming") 0).playerMessages = [] :=
  autoMod_ban_passes_hierarchy_records_autoMod ⟨"idA", "Alice"⟩ "Alice" ["7d"] banEnv
    (some "spamming") 0 (by decide) (by decide)

/-- C9: a null issuer with the default `invokedBy = "PlayerCommand"` skips
the self-ban check and all three hierarchy checks (each is gated on a
non-null player), so a found valid target is banned and the recorded
`bannedBy` equals `"System"`. -/
theorem null_issuer_player_command_records_system
    (found : BanCommand.BanPlayer) (t : String) (rest : List String)
    (deps : BanCommand.BanDeps) (amct : Option String) (now : Nat)
    (hFound : deps.findPlayer t = some found)
    (hDur : BanCommand.durationValid
        (deps.parseDuration (BanCommand.durationStringOf rest)) = true) :
    ((BanCommand.execute none (t :: rest) deps "PlayerCommand" false amct now).addBanCalls.map
        BanCommand.BanCall.bannedBy) = ["System"]
    ∧ (BanCommand.execute none (t :: rest) deps "PlayerCommand" false amct now).playerMessages
        = [] := by
  cases hab : deps.addBanResult <;>
    simp [BanCommand.execute, BanCommand.banProceed, BanCommand.emptyOutcome,
      hFound, hDur, hab]

/-- Witness for C9: a system invocation with a null issuer bans "Alice"
permanently and records `bannedBy = "System"`. -/
theorem null_issuer_player_command_records_system_witness :
    ((BanCommand.execute none ["Alice"] banEnv "PlayerCommand" false
        none 0).addBanCalls.map BanCommand.BanCall.bannedBy) = ["System"]
    ∧ (BanCommand.execute none ["Alice"] banEnv "PlayerCommand" false
        none 0).playerMessages = [] :=
  null_issuer_player_command_records_system ⟨"idA", "Alice"⟩ "Alice" [] banEnv
    none 0 (by decide) (by decide)

/-- C1 (evaluation at the failing input): an owner-level issuer sending
"!ban Bob" passes parsing, lookup, enablement and the permission check,
and `handleChatCommand` then throws the `ReferenceError` for the unbound
`logManager` shorthand while building the dependency bundle — before the
`try` that would catch executor errors — instead of returning normally
for every input as the claim states. -/
theorem handleChatCommand_dispatch_throws :
    CommandManager.handleChatCommand ⟨"p1", "Alice", "Alice"⟩ "!ban Bob" ownerBanEnv
      = Except.error "ReferenceError: logManager is not defined" := by
  rfl

/-- C4: with the same configured marker and alias table, a chat message
whose resolved command is registered but effectively disabled draws a
reply character-for-character identical to the reply for a resolved
command with no registration at all; in both runs the chat message is
consumed and no executor is invoked. -/
theorem disabled_command_matches_unknown
    (player : CommandManager.ChatPlayer) (message : String)
    (d1 d2 : CommandManager.DispatchDeps) (cd : CommandManager.CommandDefinition)
    (hpfx : d1.prefixStr = d2.prefixStr)
    (hal : d1.commandAliases = d2.commandAliases)
    (hdef1 : lookupAssoc d1.defs (CommandManager.resolvedCommandName message d1) = some cd)
    (hexec1 : d1.execs.contains (CommandManager.resolvedCommandName message d1) = true)
    (hdis : CommandManager.effectiveEnabled d1 (CommandManager.resolvedCommandName message d1) cd
        = false)
    (hdef2 : lookupAssoc d2.defs (CommandManager.resolvedCommandName message d2) = none) :
    CommandManager.dispatchMessages (CommandManager.handleChatCommand player message d1)
      = CommandManager.dispatchMessages (CommandManager.handleChatCommand player message d2)
    ∧ CommandManager.dispatchFlags (CommandManager.handleChatCommand player message d1)
        = some (true, false)
    ∧ CommandManager.dispatchFlags (CommandManager.handleChatCommand player message d2)
        = some (true, false) := by
  have hinp : CommandManager.commandNameInputOf message d1
      = CommandManager.commandNameInputOf message d2 := by
    simp [CommandManager.commandNameInputOf, hpfx]
  have hres : CommandManager.resolvedCommandName message d1
      = CommandManager.resolvedCommandName message d2 := by
    simp [CommandManager.resolvedCommandName, hinp, hal]
  by_cases hc : CommandManager.commandNameInputOf message d1 = ""
  · have hc2 : CommandManager.commandNameInputOf message d2 = "" := by
      rw [← hinp]; exact hc
    refine ⟨?_, ?_, ?_⟩ <;>
      simp [CommandManager.handleChatCommand, CommandManager.dispatchMessages,
        CommandManager.dispatchFlags, hc, hc2, hpfx]
  · have hc2 : ¬ CommandManager.commandNameInputOf message d2 = "" := by
      rw [← hinp]; exact hc
    refine ⟨?_, ?_, ?_⟩
    · cases hcont : d2.execs.contains (CommandManager.resolvedCommandName message d2) <;>
        · simp only [CommandManager.handleChatCommand, if_neg hc, if_neg hc2,
            hdef1, hexec1, hdef2, hcont, hdis, if_pos rfl]
          simp [CommandManager.dispatchMessages, CommandManager.unknownCommandMsg, hpfx, hres]
    · simp only [CommandManager.handleChatCommand, if_neg hc, hdef1, hexec1, hdis, if_pos rfl]
      simp [CommandManager.dispatchFlags]
    · cases hcont : d2.execs.contains (CommandManager.resolvedCommandName message d2) <;>
        · simp only [CommandManager.handleChatCommand, if_neg hc2, hdef2, hcont]
          simp [CommandManager.dispatchFlags]

/-- Witness for C4: "!ban Bob" against a registry where ban is disabled by
override versus an empty registry draws the same reply with the message
consumed and no executor run. -/
theorem disabled_command_matches_unknown_witness :
    CommandManager.dispatchMessages
        (CommandManager.handleChatCommand ⟨"p1", "Alice", "Alice"⟩ "!ban Bob" disabledBanEnv)
      = CommandManager.dispatchMessages
        (CommandManager.handleChatCommand ⟨"p1", "Alice", "Alice"⟩ "!ban Bob" emptyRegistryEnv)
    ∧ CommandManager.dispatchFlags
        (CommandManager.handleChatCommand ⟨"p1", "Alice", "Alice"⟩ "!ban Bob" disabledBanEnv)
        = some (true, false)
    ∧ CommandManager.dispatchFlags
        (CommandManager.handleChatCommand ⟨"p1", "Alice", "Alice"⟩ "!ban Bob" emptyRegistryEnv)
        = some (true, false) :=
  disabled_command_matches_unknown ⟨"p1", "Alice", "Alice"⟩ "!ban Bob"
    disabledBanEnv emptyRegistryEnv BanCommand.banDefinition
    rfl rfl (by decide) (by decide) (by decide) (by decide)

end AntiCheats
